import Mathlib

/-
  Verification development for the Movie Manager repository.

  The backend routes in src/server/routes/movies.js and the Mongoose schema
  in the Movie model are embedded shallowly: JS strings become lists of
  characters, the MongoDB collection becomes a list of movie records, JS
  numbers for ratings become rationals, and each Express handler becomes a
  pure function from its inputs and the current database to a result and
  the next database.
-/

namespace MovieManager

/-- JS strings, modelled as lists of characters. -/
abbrev Str := List Char

/-- Whitespace characters removed by the JS trim method. -/
def isWs (c : Char) : Bool :=
  c = ' ' || c = '\t' || c = '\n' || c = '\r'

/-- Embedding of the JS String trim method: remove leading and trailing
whitespace. -/
def jsTrim (s : Str) : Str :=
  ((s.dropWhile isWs).reverse.dropWhile isWs).reverse

/-- Shorthand turning a Lean string literal into the Str embedding. -/
def str (s : String) : Str := s.toList

/-- JS truthiness of a string: the empty string is falsy. -/
def truthyStr (s : Str) : Bool := !s.isEmpty

/-- JS truthiness of an integer: zero is falsy. -/
def truthyInt (n : Int) : Bool := decide (n ≠ 0)

/-- JS truthiness of a rational number: zero is falsy. -/
def truthyRat (q : ℚ) : Bool := decide (q ≠ 0)

/-- A stored user record (the fields the movie routes read). -/
structure UserT where
  id : Str
  username : Str
  email : Str
deriving DecidableEq

/-- A stored movie document, following the Mongoose movieSchema: title and
description are required, genre, releaseYear and posterUrl are optional,
and rating has schema default 0 so it is always present once stored. -/
structure Movie where
  id : Str
  title : Str
  description : Str
  uploadedBy : Str
  uploadedAt : Int
  genre : Option Str
  releaseYear : Option Int
  rating : ℚ
  posterUrl : Option Str
deriving DecidableEq

/-- The owner subdocument produced by populate: getOne selects username and
email, the list endpoints select only username (email stays none). -/
structure Owner where
  username : Str
  email : Option Str
deriving DecidableEq

/-- A movie as returned to the client, with the uploadedBy reference
populated from the users collection. -/
structure MovieOut where
  movie : Movie
  owner : Option Owner
deriving DecidableEq

/-- Embedding of mongoose populate with a field selection: look the owner
up in the users collection and keep email only when the selection asks
for it. -/
def populateOwner (withEmail : Bool) (users : List UserT) (m : Movie) : MovieOut :=
  { movie := m,
    owner := (users.find? (fun u => decide (u.id = m.uploadedBy))).map
      (fun u => { username := u.username,
                  email := if withEmail then some u.email else none }) }

/-- A MongoDB ObjectId in string form is exactly 24 hex characters; any
other string makes findById throw a CastError. -/
def isValidObjectId (s : Str) : Bool :=
  decide (s.length = 24) &&
    s.all (fun c => c.isDigit || (decide ('a' ≤ c) && decide (c ≤ 'f'))
      || (decide ('A' ≤ c) && decide (c ≤ 'F')))

/-- Embedding of Movie.findById on a raw request parameter: a malformed id
raises CastError (the error branch); a well-formed id looks the document
up. -/
def findById (db : List Movie) (rawId : Str) : Except Unit (Option Movie) :=
  if isValidObjectId rawId then
    Except.ok (db.find? (fun m => decide (m.id = rawId)))
  else
    Except.error ()

/-- Request body for create and update: each field is present or absent,
mirroring the destructuring of req.body in the handlers. -/
structure MovieBody where
  title : Option Str
  description : Option Str
  genre : Option Str
  releaseYear : Option Int
  rating : Option ℚ
  posterUrl : Option Str
deriving DecidableEq

/-- The all-absent body, a convenient base for fixtures. -/
def emptyBody : MovieBody :=
  { title := none, description := none, genre := none,
    releaseYear := none, rating := none, posterUrl := none }

/-- The express-validator chain on POST /api/movies: title and description
must be non-empty and within their maximum lengths; no other field is
checked at this stage. A missing field fails notEmpty. -/
def postBodyValid (b : MovieBody) : Bool :=
  (match b.title with
   | none => false
   | some t => decide (0 < t.length) && decide (t.length ≤ 200)) &&
  (match b.description with
   | none => false
   | some d => decide (0 < d.length) && decide (d.length ≤ 1000))

/-- The express-validator chain on PUT /api/movies/:id: title and
description are optional, but when supplied must be non-empty and within
their maximum lengths; no other field is checked at this stage. -/
def putBodyValid (b : MovieBody) : Bool :=
  (match b.title with
   | none => true
   | some t => decide (0 < t.length) && decide (t.length ≤ 200)) &&
  (match b.description with
   | none => true
   | some d => decide (0 < d.length) && decide (d.length ≤ 1000))

/-- Mongoose schema validation of a full document at save time: required
non-empty title and description with their maximum lengths, genre at most
50 characters, releaseYear in 1900..currentYear+5, rating in 0..10.
posterUrl carries no constraint. -/
def movieSchemaValid (currentYear : Int) (m : Movie) : Bool :=
  decide (0 < m.title.length) && decide (m.title.length ≤ 200) &&
  decide (0 < m.description.length) && decide (m.description.length ≤ 1000) &&
  (match m.genre with
   | none => true
   | some g => decide (g.length ≤ 50)) &&
  (match m.releaseYear with
   | none => true
   | some y => decide (1900 ≤ y) && decide (y ≤ currentYear + 5)) &&
  decide ((0 : ℚ) ≤ m.rating) && decide (m.rating ≤ 10)

/-- The new document built by the create handler: title and description
trimmed, owner and timestamp stamped, and each optional field spread in
only when its supplied value is truthy; an absent or falsy rating leaves
the schema default 0. -/
def buildNewMovie (userId newId : Str) (now : Int) (t d : Str) (b : MovieBody) : Movie :=
  { id := newId,
    title := jsTrim t,
    description := jsTrim d,
    uploadedBy := userId,
    uploadedAt := now,
    genre := match b.genre with
      | some g => if truthyStr g then some (jsTrim g) else none
      | none => none,
    releaseYear := match b.releaseYear with
      | some y => if truthyInt y then some y else none
      | none => none,
    rating := match b.rating with
      | some r => if truthyRat r then r else 0
      | none => 0,
    posterUrl := match b.posterUrl with
      | some p => if truthyStr p then some (jsTrim p) else none
      | none => none }

/-- Results of POST /api/movies: 400 from express-validator, 400 for a
duplicate title of the same owner, 500 when the save-time schema
validation throws, 201 with the populated movie on success. -/
inductive CreateResult
  | validationErr
  | conflict
  | serverErr
  | ok (m : MovieOut)
deriving DecidableEq

/-- Embedding of the POST /api/movies handler: run the validator chain,
reject a duplicate trimmed title for the same owner, build the document,
save it (mongoose validation; a failure there is caught as a generic 500),
and return it populated with the owner username. -/
def createMovie (currentYear : Int) (db : List Movie) (users : List UserT)
    (userId newId : Str) (now : Int) (b : MovieBody) : CreateResult × List Movie :=
  if postBodyValid b then
    match b.title, b.description with
    | some t, some d =>
      if db.any (fun m => decide (m.title = jsTrim t) && decide (m.uploadedBy = userId)) then
        (CreateResult.conflict, db)
      else
        let m := buildNewMovie userId newId now t d b
        if movieSchemaValid currentYear m then
          (CreateResult.ok (populateOwner false users m), db ++ [m])
        else
          (CreateResult.serverErr, db)
    | _, _ => (CreateResult.validationErr, db)
  else
    (CreateResult.validationErr, db)

/-- The updates object built by the PUT handler: a field enters the update
exactly when it is present in the body (a presence check against
undefined, not a truthiness check), with string fields trimmed. -/
def buildUpdates (b : MovieBody) : MovieBody :=
  { title := b.title.map jsTrim,
    description := b.description.map jsTrim,
    genre := b.genre.map jsTrim,
    releaseYear := b.releaseYear,
    rating := b.rating,
    posterUrl := b.posterUrl.map jsTrim }

/-- Mongoose update validators (runValidators: true): each path present in
the update is checked against the schema; required rejects an empty title
or description, and the length and range bounds apply per field. -/
def updatesValid (currentYear : Int) (u : MovieBody) : Bool :=
  (match u.title with
   | none => true
   | some t => decide (0 < t.length) && decide (t.length ≤ 200)) &&
  (match u.description with
   | none => true
   | some d => decide (0 < d.length) && decide (d.length ≤ 1000)) &&
  (match u.genre with
   | none => true
   | some g => decide (g.length ≤ 50)) &&
  (match u.releaseYear with
   | none => true
   | some y => decide (1900 ≤ y) && decide (y ≤ currentYear + 5)) &&
  (match u.rating with
   | none => true
   | some r => decide ((0 : ℚ) ≤ r) && decide (r ≤ 10))

/-- Apply a $set update to a stored document: present fields overwrite,
absent fields keep their stored value. -/
def applyUpdates (u : MovieBody) (m : Movie) : Movie :=
  { m with
    title := u.title.getD m.title,
    description := u.description.getD m.description,
    genre := match u.genre with
      | none => m.genre
      | some g => some g,
    releaseYear := match u.releaseYear with
      | none => m.releaseYear
      | some y => some y,
    rating := u.rating.getD m.rating,
    posterUrl := match u.posterUrl with
      | none => m.posterUrl
      | some p => some p }

/-- Results of PUT /api/movies/:id: 400 from express-validator, 404 for a
missing or malformed id, 403 for a non-owner, 500 when the update
validators throw (only CastError is mapped to 404 by the handler), 200
with the populated movie on success. -/
inductive UpdateResult
  | validationErr
  | notFound
  | forbidden
  | serverErr
  | ok (m : MovieOut)
deriving DecidableEq

/-- Embedding of the PUT /api/movies/:id handler: validator chain, lookup
(CastError caught as 404), ownership check, build the updates object from
the fields present, run findByIdAndUpdate with update validators (a
validator failure is caught and, not being a CastError, becomes 500), and
return the updated movie populated with the owner username. -/
def updateMovie (currentYear : Int) (db : List Movie) (users : List UserT)
    (userId rawId : Str) (b : MovieBody) : UpdateResult × List Movie :=
  if putBodyValid b then
    match findById db rawId with
    | Except.error _ => (UpdateResult.notFound, db)
    | Except.ok none => (UpdateResult.notFound, db)
    | Except.ok (some m) =>
      if m.uploadedBy ≠ userId then
        (UpdateResult.forbidden, db)
      else
        let u := buildUpdates b
        if updatesValid currentYear u then
          let m2 := applyUpdates u m
          (UpdateResult.ok (populateOwner false users m2),
           db.map (fun x => if x.id = m.id then m2 else x))
        else
          (UpdateResult.serverErr, db)
  else
    (UpdateResult.validationErr, db)

/-- Results of DELETE /api/movies/:id. -/
inductive DeleteResult
  | notFound
  | forbidden
  | ok
deriving DecidableEq

/-- Embedding of the DELETE /api/movies/:id handler: lookup (CastError
caught as 404), ownership check, then findByIdAndDelete. -/
def deleteMovie (db : List Movie) (userId rawId : Str) : DeleteResult × List Movie :=
  match findById db rawId with
  | Except.error _ => (DeleteResult.notFound, db)
  | Except.ok none => (DeleteResult.notFound, db)
  | Except.ok (some m) =>
    if m.uploadedBy ≠ userId then
      (DeleteResult.forbidden, db)
    else
      (DeleteResult.ok, db.filter (fun x => decide (x.id ≠ rawId)))

/-- Results of GET /api/movies/:id. -/
inductive GetOneResult
  | notFound
  | ok (m : MovieOut)
deriving DecidableEq

/-- Embedding of the GET /api/movies/:id handler: lookup (CastError caught
as 404) and populate the owner with username and email. -/
def getMovie (db : List Movie) (users : List UserT) (rawId : Str) : GetOneResult :=
  match findById db rawId with
  | Except.error _ => GetOneResult.notFound
  | Except.ok none => GetOneResult.notFound
  | Except.ok (some m) => GetOneResult.ok (populateOwner true users m)

/-- Lowercase a string character by character. -/
def lowerStr (s : Str) : Str := s.map Char.toLower

/-- Split a string on whitespace, accumulating the current word reversed. -/
def splitWsAux : Str → Str → List Str
  | [], cur => if cur.isEmpty then [] else [cur.reverse]
  | c :: rest, cur =>
    if isWs c then
      if cur.isEmpty then splitWsAux rest []
      else cur.reverse :: splitWsAux rest []
    else
      splitWsAux rest (c :: cur)

/-- The whitespace tokens of a string. -/
def wordsOf (s : Str) : List Str := splitWsAux s []

/-- Modelled from the external store: the MongoDB text operator over the
text index declared on title and description in the movieSchema. A
document matches when any search term occurs as a token of the title or
of the description, case-insensitively, with OR semantics across terms
and across the two fields. Stemming and punctuation folding of the real
engine are not modelled. -/
def textMatches (search : Str) (m : Movie) : Bool :=
  (wordsOf (lowerStr search)).any (fun w =>
    (wordsOf (lowerStr m.title)).any (fun w2 => decide (w2 = w)) ||
    (wordsOf (lowerStr m.description)).any (fun w2 => decide (w2 = w)))

/-- Lexicographic order on strings by character code, standing in for the
store comparison of string fields. -/
def strLe : Str → Str → Bool
  | [], _ => true
  | _ :: _, [] => false
  | a :: as, b :: bs =>
    if a.val < b.val then true
    else if b.val < a.val then false
    else strLe as bs

/-- Order on optional fields: a missing field sorts lowest. -/
def optLe (le : α → α → Bool) : Option α → Option α → Bool
  | none, _ => true
  | some _, none => false
  | some a, some b => le a b

/-- Ascending comparison of two movies on the field named by sortBy; a
name that is not a schema field leaves the documents tied. -/
def fieldLe (sortBy : Str) (a b : Movie) : Bool :=
  if sortBy = str "title" then strLe a.title b.title
  else if sortBy = str "description" then strLe a.description b.description
  else if sortBy = str "genre" then optLe strLe a.genre b.genre
  else if sortBy = str "releaseYear" then
    optLe (fun x y => decide (x ≤ y)) a.releaseYear b.releaseYear
  else if sortBy = str "rating" then decide (a.rating ≤ b.rating)
  else if sortBy = str "posterUrl" then optLe strLe a.posterUrl b.posterUrl
  else if sortBy = str "uploadedAt" then decide (a.uploadedAt ≤ b.uploadedAt)
  else true

/-- Embedding of the sort stage: direction desc exactly when sortOrder is
the string desc (anything else sorts ascending, as in the handler). -/
def sortMovies (sortBy sortOrder : Str) (l : List Movie) : List Movie :=
  if sortOrder = str "desc" then l.mergeSort (fun a b => fieldLe sortBy b a)
  else l.mergeSort (fieldLe sortBy)

/-- Query parameters of the list endpoints; absent parameters take the
handler defaults page 1, limit 10, sortBy uploadedAt, sortOrder desc. -/
structure ListQuery where
  page : Option Nat
  limit : Option Nat
  search : Option Str
  sortBy : Option Str
  sortOrder : Option Str

/-- Response shape of the list endpoints. -/
structure ListResponse where
  movies : List MovieOut
  currentPage : Nat
  totalPages : Nat
  totalMovies : Nat
deriving DecidableEq

/-- The query document built by GET /api/movies: a truthy search adds the
text filter, otherwise the query is empty and matches every movie. -/
def matchingMovies (db : List Movie) (search : Option Str) : List Movie :=
  match search with
  | some s => if truthyStr s then db.filter (textMatches s) else db
  | none => db

/-- Embedding of the GET /api/movies handler: filter by search, sort,
skip (page - 1) * limit, take limit, populate the owner username, and
report ceil(total / limit) as the page count. -/
def listMovies (db : List Movie) (users : List UserT) (q : ListQuery) : ListResponse :=
  let page := q.page.getD 1
  let limit := q.limit.getD 10
  let sortBy := q.sortBy.getD (str "uploadedAt")
  let sortOrder := q.sortOrder.getD (str "desc")
  let filtered := matchingMovies db q.search
  let sorted := sortMovies sortBy sortOrder filtered
  let total := filtered.length
  { movies := ((sorted.drop ((page - 1) * limit)).take limit).map (populateOwner false users),
    currentPage := page,
    totalPages := (total + limit - 1) / limit,
    totalMovies := total }

/-- Embedding of the GET /api/movies/user/my-movies handler: the same
pipeline restricted to the movies of the requesting user, with no search
parameter. -/
def myMovies (db : List Movie) (users : List UserT) (userId : Str)
    (q : ListQuery) : ListResponse :=
  let page := q.page.getD 1
  let limit := q.limit.getD 10
  let sortBy := q.sortBy.getD (str "uploadedAt")
  let sortOrder := q.sortOrder.getD (str "desc")
  let filtered := db.filter (fun m => decide (m.uploadedBy = userId))
  let sorted := sortMovies sortBy sortOrder filtered
  let total := filtered.length
  { movies := ((sorted.drop ((page - 1) * limit)).take limit).map (populateOwner false users),
    currentPage := page,
    totalPages := (total + limit - 1) / limit,
    totalMovies := total }

/-- Stored string fields of a movie are fixed points of trimming. -/
def trimmedMovie (m : Movie) : Bool :=
  decide (m.title = jsTrim m.title) &&
  decide (m.description = jsTrim m.description) &&
  (match m.genre with
   | none => true
   | some g => decide (g = jsTrim g)) &&
  (match m.posterUrl with
   | none => true
   | some p => decide (p = jsTrim p))

/-- Every stored movie has trimmed string fields. -/
def trimmedDb (db : List Movie) : Bool := db.all trimmedMovie

/-- Fixture: ObjectId of user alice. -/
def oidA : Str := str "aaaaaaaaaaaaaaaaaaaaaaaa"

/-- Fixture: ObjectId of user bob. -/
def oidB : Str := str "bbbbbbbbbbbbbbbbbbbbbbbb"

/-- Fixture: ObjectId of the movie Dune. -/
def oid1 : Str := str "cccccccccccccccccccccccc"

/-- Fixture: ObjectId of the movie Arrival. -/
def oid2 : Str := str "dddddddddddddddddddddddd"

/-- Fixture: a well-formed ObjectId used by no stored movie. -/
def oidFree : Str := str "eeeeeeeeeeeeeeeeeeeeeeee"

/-- Fixture: a malformed resource identifier. -/
def badId : Str := str "not-an-objectid"

/-- Fixture: user alice. -/
def userA : UserT :=
  { id := oidA, username := str "alice", email := str "alice@example.com" }

/-- Fixture: user bob. -/
def userB : UserT :=
  { id := oidB, username := str "bob", email := str "bob@example.com" }

/-- Fixture: a movie owned by alice. -/
def mDune : Movie :=
  { id := oid1, title := str "Dune", description := str "Desert planet saga",
    uploadedBy := oidA, uploadedAt := 10, genre := some (str "Sci-Fi"),
    releaseYear := some 2021, rating := 8, posterUrl := none }

/-- Fixture: a second movie owned by alice. -/
def mArrival : Movie :=
  { id := oid2, title := str "Arrival", description := str "Aliens teach language",
    uploadedBy := oidA, uploadedAt := 20, genre := none,
    releaseYear := none, rating := 0, posterUrl := none }

/-- Fixture: the two-movie database. -/
def db2 : List Movie := [mDune, mArrival]

/-- Fixture: an update body renaming a movie to Dune. -/
def bDuneTitle : MovieBody := { emptyBody with title := some (str "Dune") }

/-- Fixture: Arrival after being renamed to Dune. -/
def mArrivalRenamed : Movie := { mArrival with title := str "Dune" }

/-- Fixture: a create body for a second Dune. -/
def bDuneCreate : MovieBody :=
  { emptyBody with title := some (str "Dune"), description := some (str "again") }

/-- Fixture: an update body with an out-of-range rating. -/
def bRating11 : MovieBody := { emptyBody with rating := some 11 }

/-- Fixture: an update body whose title exceeds 200 characters. -/
def bLongTitle : MovieBody := { emptyBody with title := some (List.replicate 201 'x') }

/-- Fixture: an update body whose description exceeds 1000 characters. -/
def bLongDesc : MovieBody := { emptyBody with description := some (List.replicate 1001 'y') }

/-- Fixture: an update body supplying an explicitly empty title. -/
def bEmptyTitle : MovieBody := { emptyBody with title := some [] }

/-- Fixture: an update body supplying an explicitly empty description. -/
def bEmptyDesc : MovieBody := { emptyBody with description := some [] }

/-- Fixture: an update body supplying a rating and an explicitly empty
posterUrl. -/
def bRatingPoster : MovieBody := { emptyBody with rating := some 9, posterUrl := some [] }

/-- Dropping a prefix twice with the same predicate drops it once. -/
theorem dropWhile_dropWhile {α : Type} (p : α → Bool) (l : List α) :
    (l.dropWhile p).dropWhile p = l.dropWhile p := by
  induction l with
  | nil => rfl
  | cons x xs ih =>
    cases hx : p x
    · simp [List.dropWhile_cons, hx]
    · simp [List.dropWhile_cons, hx, ih]

/-- Dropping a prefix does not change the last element when something is
left. -/
theorem getLast?_dropWhile {α : Type} (p : α → Bool) (l : List α)
    (h : l.dropWhile p ≠ []) :
    (l.dropWhile p).getLast? = l.getLast? := by
  induction l with
  | nil => simp at h
  | cons x xs ih =>
    cases hx : p x
    · rw [List.dropWhile_cons]
      simp [hx]
    · rw [List.dropWhile_cons] at h ⊢
      simp only [hx, if_pos, reduceIte] at h ⊢
      have hxs : xs ≠ [] := by
        intro he
        rw [he] at h
        simp at h
      rw [ih h]
      obtain ⟨y, ys, rfl⟩ := List.exists_cons_of_ne_nil hxs
      rw [List.getLast?_cons_cons]

/-- The head surviving a dropWhile does not satisfy the predicate. -/
theorem head?_dropWhile_false {α : Type} (p : α → Bool) (l : List α) (x : α)
    (hx : (l.dropWhile p).head? = some x) : p x = false := by
  have hne : l.dropWhile p ≠ [] := by
    intro he
    rw [he] at hx
    simp at hx
  have hhead := List.head_dropWhile_not p l hne
  rw [List.head?_eq_head hne] at hx
  have := Option.some.inj hx
  rw [← this]
  exact hhead

/-- A list whose head does not satisfy the predicate is unchanged by
dropWhile. -/
theorem dropWhile_eq_self_of_head {α : Type} (p : α → Bool) (l : List α)
    (h : ∀ x, l.head? = some x → p x = false) : l.dropWhile p = l := by
  cases l with
  | nil => rfl
  | cons x xs =>
    rw [List.dropWhile_cons, if_neg]
    simp [h x rfl]

/-- Trimming is idempotent. -/
theorem jsTrim_idem (s : Str) : jsTrim (jsTrim s) = jsTrim s := by
  unfold jsTrim
  have h1 : ((((s.dropWhile isWs).reverse.dropWhile isWs).reverse).dropWhile isWs)
      = ((s.dropWhile isWs).reverse.dropWhile isWs).reverse := by
    apply dropWhile_eq_self_of_head
    intro x hx
    rw [List.head?_reverse] at hx
    have htne : (s.dropWhile isWs).reverse.dropWhile isWs ≠ [] := by
      intro he
      rw [he] at hx
      simp at hx
    rw [getLast?_dropWhile isWs _ htne, List.getLast?_reverse] at hx
    exact head?_dropWhile_false isWs s x hx
  rw [h1, List.reverse_reverse, dropWhile_dropWhile]

/-- C1: for every movie created by user A and every user B with B ≠ A,
invoking update (with a body passing the validator chain) or delete on
that movie as B fails with ForbiddenError 403, and the database is left
unchanged by the failed call. -/
theorem c1_foreign_mutation_forbidden
    (currentYear : Int) (db : List Movie) (users : List UserT)
    (idA idB rawId : Str) (m : Movie) (b : MovieBody)
    (hfind : findById db rawId = Except.ok (some m))
    (hown : m.uploadedBy = idA) (hne : idB ≠ idA)
    (hv : putBodyValid b = true) :
    deleteMovie db idB rawId = (DeleteResult.forbidden, db) ∧
    updateMovie currentYear db users idB rawId b = (UpdateResult.forbidden, db) := by
  have hOwnNe : m.uploadedBy ≠ idB := by
    rw [hown]
    exact fun he => hne he.symm
  constructor
  · unfold deleteMovie
    rw [hfind]
    simp [hOwnNe]
  · unfold updateMovie
    rw [hv, hfind]
    simp [hOwnNe]

/-- Witness for C1: bob can neither delete nor update the movie of
alice, and the database is unchanged. -/
theorem c1_witness :
    deleteMovie db2 oidB oid1 = (DeleteResult.forbidden, db2) ∧
    updateMovie 2030 db2 [userA, userB] oidB oid1
      { emptyBody with rating := some 9 } = (UpdateResult.forbidden, db2) :=
  c1_foreign_mutation_forbidden 2030 db2 [userA, userB] oidA oidB oid1 mDune
    { emptyBody with rating := some 9 } rfl (by decide) (by decide) (by decide)

/-- C6: for getOne, update (with a body passing the validator chain) and
delete, a malformed movie id gives exactly the same outcome as a
well-formed id that matches no stored movie: NotFoundError 404, never a
distinct error kind. -/
theorem c6_malformed_id_is_not_found
    (currentYear : Int) (db : List Movie) (users : List UserT)
    (uid rawId goodId : Str) (b : MovieBody)
    (hbad : isValidObjectId rawId = false)
    (hgood : isValidObjectId goodId = true)
    (habsent : ∀ m ∈ db, m.id ≠ goodId)
    (hv : putBodyValid b = true) :
    getMovie db users rawId = GetOneResult.notFound ∧
    getMovie db users rawId = getMovie db users goodId ∧
    deleteMovie db uid rawId = (DeleteResult.notFound, db) ∧
    deleteMovie db uid rawId = deleteMovie db uid goodId ∧
    updateMovie currentYear db users uid rawId b = (UpdateResult.notFound, db) ∧
    updateMovie currentYear db users uid rawId b
      = updateMovie currentYear db users uid goodId b := by
  have hb : findById db rawId = Except.error () := by
    simp [findById, hbad]
  have hg : findById db goodId = Except.ok none := by
    simp only [findById, hgood, if_pos, reduceIte]
    refine congrArg Except.ok (List.find?_eq_none.mpr ?_)
    intro x hx
    simpa using habsent x hx
  refine ⟨?_, ?_, ?_, ?_, ?_, ?_⟩
  · simp [getMovie, hb]
  · simp [getMovie, hb, hg]
  · simp [deleteMovie, hb]
  · simp [deleteMovie, hb, hg]
  · simp [updateMovie, hv, hb]
  · simp [updateMovie, hv, hb, hg]

/-- Witness for C6: a malformed id against the fixture database behaves
exactly like the unused well-formed id. -/
theorem c6_witness :
    getMovie db2 [userA] badId = GetOneResult.notFound ∧
    getMovie db2 [userA] badId = getMovie db2 [userA] oidFree ∧
    deleteMovie db2 oidA badId = (DeleteResult.notFound, db2) ∧
    deleteMovie db2 oidA badId = deleteMovie db2 oidA oidFree ∧
    updateMovie 2030 db2 [userA] oidA badId bDuneTitle = (UpdateResult.notFound, db2) ∧
    updateMovie 2030 db2 [userA] oidA badId bDuneTitle
      = updateMovie 2030 db2 [userA] oidA oidFree bDuneTitle :=
  c6_malformed_id_is_not_found 2030 db2 [userA] oidA badId oidFree bDuneTitle
    (by decide) (by decide) (by decide) (by decide)

/-- C2: duplicate-title uniqueness per owner is enforced at creation
only: create fails with ConflictError when the invoking user already owns
a movie whose stored title equals the trimmed new title, a different user
creating the same title succeeds, and update performs no duplicate-title
check, so renaming Arrival to Dune leaves alice with two movies titled
Dune. -/
theorem c2_duplicate_title_create_only
    (currentYear : Int) (db : List Movie) (users : List UserT)
    (idA idB newId : Str) (now : Int) (b : MovieBody) (t d : Str) (mdup : Movie)
    (hbv : postBodyValid b = true)
    (ht : b.title = some t) (hd : b.description = some d)
    (hmem : mdup ∈ db) (howner : mdup.uploadedBy = idA)
    (htitle : mdup.title = jsTrim t)
    (hnodup : ∀ m ∈ db, m.uploadedBy = idB → m.title ≠ jsTrim t)
    (hschema : movieSchemaValid currentYear (buildNewMovie idB newId now t d b) = true) :
    createMovie currentYear db users idA newId now b = (CreateResult.conflict, db) ∧
    createMovie currentYear db users idB newId now b
      = (CreateResult.ok (populateOwner false users (buildNewMovie idB newId now t d b)),
         db ++ [buildNewMovie idB newId now t d b]) ∧
    updateMovie 2030 db2 [] oidA oid2 bDuneTitle
      = (UpdateResult.ok (populateOwner false [] mArrivalRenamed),
         [mDune, mArrivalRenamed]) ∧
    (([mDune, mArrivalRenamed].filter
        (fun m => decide (m.uploadedBy = oidA) && decide (m.title = str "Dune"))).length = 2) := by
  have hdup : db.any
      (fun m => decide (m.title = jsTrim t) && decide (m.uploadedBy = idA)) = true := by
    refine List.any_eq_true.mpr ⟨mdup, hmem, ?_⟩
    simp [htitle, howner]
  have hnodupB : db.any
      (fun m => decide (m.title = jsTrim t) && decide (m.uploadedBy = idB)) = false := by
    refine List.any_eq_false.mpr ?_
    intro m hm
    simp only [Bool.and_eq_true, decide_eq_true_eq, not_and]
    intro hT hB
    exact hnodup m hm hB hT
  refine ⟨?_, ?_, by decide, by decide⟩
  · unfold createMovie
    rw [hbv]
    simp only [ht, hd, if_pos, reduceIte, hdup]
  · unfold createMovie
    rw [hbv]
    simp only [ht, hd, if_pos, reduceIte, hnodupB, Bool.false_eq_true, hschema]

/-- Witness for C2: alice creating Dune again conflicts, bob creating
Dune succeeds, and the concrete rename leaves two Dunes for alice. -/
theorem c2_witness :
    createMovie 2030 db2 [userA, userB] oidA oidFree 30 bDuneCreate
      = (CreateResult.conflict, db2) ∧
    createMovie 2030 db2 [userA, userB] oidB oidFree 30 bDuneCreate
      = (CreateResult.ok (populateOwner false [userA, userB]
           (buildNewMovie oidB oidFree 30 (str "Dune") (str "again") bDuneCreate)),
         db2 ++ [buildNewMovie oidB oidFree 30 (str "Dune") (str "again") bDuneCreate]) ∧
    updateMovie 2030 db2 [] oidA oid2 bDuneTitle
      = (UpdateResult.ok (populateOwner false [] mArrivalRenamed),
         [mDune, mArrivalRenamed]) ∧
    (([mDune, mArrivalRenamed].filter
        (fun m => decide (m.uploadedBy = oidA) && decide (m.title = str "Dune"))).length = 2) :=
  c2_duplicate_title_create_only 2030 db2 [userA, userB] oidA oidB oidFree 30
    bDuneCreate (str "Dune") (str "again") mDune
    (by decide) rfl rfl (by decide) (by decide) (by decide) (by decide) (by decide)

/-- C3 counterexample: the owner updates a movie with rating 11, a value
outside the declared 0..10 bounds; the call is rejected, but it fails
with the generic 500 ServerError (only CastError is mapped to 404 and
only the validator chain produces 400), not with ValidationError 400 as
the claim states. -/
theorem c3_counterexample :
    updateMovie 2030 db2 [userA] oidA oid1 bRating11 = (UpdateResult.serverErr, db2) ∧
    (updateMovie 2030 db2 [userA] oidA oid1 bRating11).1 ≠ UpdateResult.validationErr := by
  refine ⟨by decide, by decide⟩

/-- C3 amended: update re-validates bounds on every supplied field and a
violating call leaves the record unchanged; however only title and
description violations fail with ValidationError 400 (the validator
chain), while a violation in any other supplied field (genre,
releaseYear, rating) is rejected by the schema update validators and
surfaces as ServerError 500. -/
theorem c3_update_bounds_amended
    (currentYear : Int) (db : List Movie) (users : List UserT)
    (uid rawId : Str) (m : Movie) (b1 b2 b3 : MovieBody) (t d : Str)
    (ht : b1.title = some t) (htlen : 200 < t.length)
    (hd : b2.description = some d) (hdlen : 1000 < d.length)
    (hfind : findById db rawId = Except.ok (some m))
    (hown : m.uploadedBy = uid)
    (hv3 : putBodyValid b3 = true)
    (hbad : updatesValid currentYear (buildUpdates b3) = false) :
    updateMovie currentYear db users uid rawId b1 = (UpdateResult.validationErr, db) ∧
    updateMovie currentYear db users uid rawId b2 = (UpdateResult.validationErr, db) ∧
    updateMovie currentYear db users uid rawId b3 = (UpdateResult.serverErr, db) := by
  refine ⟨?_, ?_, ?_⟩
  · have h1 : putBodyValid b1 = false := by
      unfold putBodyValid
      simp only [ht]
      have hlen : decide (t.length ≤ 200) = false := by
        simp only [decide_eq_false_iff_not, not_le]
        omega
      simp [hlen]
    simp [updateMovie, h1]
  · have h2 : putBodyValid b2 = false := by
      unfold putBodyValid
      simp only [hd]
      have hlen : decide (d.length ≤ 1000) = false := by
        simp only [decide_eq_false_iff_not, not_le]
        omega
      simp [hlen]
    simp [updateMovie, h2]
  · unfold updateMovie
    rw [hv3, hfind]
    simp [hown, hbad]

/-- Witness for C3 amended: an over-long title and an over-long
description give 400, while rating 11 gives 500, each leaving the
fixture database unchanged. -/
theorem c3_witness :
    updateMovie 2030 db2 [userA] oidA oid1 bLongTitle = (UpdateResult.validationErr, db2) ∧
    updateMovie 2030 db2 [userA] oidA oid1 bLongDesc = (UpdateResult.validationErr, db2) ∧
    updateMovie 2030 db2 [userA] oidA oid1 bRating11 = (UpdateResult.serverErr, db2) :=
  c3_update_bounds_amended 2030 db2 [userA] oidA oid1 mDune bLongTitle bLongDesc bRating11
    (List.replicate 201 'x') (List.replicate 1001 'y')
    rfl (by simp only [List.length_replicate]; omega)
    rfl (by simp only [List.length_replicate]; omega)
    rfl (by decide) (by decide) (by decide)

/-- C4 counterexample: the owner supplies an explicitly empty title; the
claim says an explicit empty string overwrites the stored value, but the
call fails with ValidationError 400 and the stored record keeps its
title. -/
theorem c4_counterexample :
    updateMovie 2030 db2 [userA] oidA oid1 bEmptyTitle = (UpdateResult.validationErr, db2) ∧
    mDune.title = str "Dune" := by
  refine ⟨by decide, by decide⟩

/-- C4 amended: update has field-presence semantics: fields absent from
the input are left untouched, and a supplied field overwrites the stored
value (for genre and posterUrl even when it is the empty string, which is
stored trimmed); however an explicitly empty title or description does
not overwrite: the validator chain rejects the call with ValidationError
400 and the record is unchanged. -/
theorem c4_update_presence_amended
    (currentYear : Int) (db : List Movie) (users : List UserT)
    (uid rawId : Str) (m : Movie) (b b4 b5 : MovieBody)
    (hfind : findById db rawId = Except.ok (some m))
    (hown : m.uploadedBy = uid)
    (hv : putBodyValid b = true)
    (hgood : updatesValid currentYear (buildUpdates b) = true)
    (h4 : b4.title = some []) (h5 : b5.description = some []) :
    updateMovie currentYear db users uid rawId b
      = (UpdateResult.ok (populateOwner false users (applyUpdates (buildUpdates b) m)),
         db.map (fun x => if x.id = m.id then applyUpdates (buildUpdates b) m else x)) ∧
    (b.title = none → (applyUpdates (buildUpdates b) m).title = m.title) ∧
    (b.description = none → (applyUpdates (buildUpdates b) m).description = m.description) ∧
    (b.genre = none → (applyUpdates (buildUpdates b) m).genre = m.genre) ∧
    (b.releaseYear = none → (applyUpdates (buildUpdates b) m).releaseYear = m.releaseYear) ∧
    (b.rating = none → (applyUpdates (buildUpdates b) m).rating = m.rating) ∧
    (b.posterUrl = none → (applyUpdates (buildUpdates b) m).posterUrl = m.posterUrl) ∧
    (∀ g, b.genre = some g → (applyUpdates (buildUpdates b) m).genre = some (jsTrim g)) ∧
    (∀ p, b.posterUrl = some p →
        (applyUpdates (buildUpdates b) m).posterUrl = some (jsTrim p)) ∧
    (∀ r, b.rating = some r → (applyUpdates (buildUpdates b) m).rating = r) ∧
    updateMovie currentYear db users uid rawId b4 = (UpdateResult.validationErr, db) ∧
    updateMovie currentYear db users uid rawId b5 = (UpdateResult.validationErr, db) := by
  refine ⟨?_, ?_, ?_, ?_, ?_, ?_, ?_, ?_, ?_, ?_, ?_, ?_⟩
  · unfold updateMovie
    rw [hv, hfind]
    simp [hown, hgood]
  · intro h
    simp [applyUpdates, buildUpdates, h]
  · intro h
    simp [applyUpdates, buildUpdates, h]
  · intro h
    simp [applyUpdates, buildUpdates, h]
  · intro h
    simp [applyUpdates, buildUpdates, h]
  · intro h
    simp [applyUpdates, buildUpdates, h]
  · intro h
    simp [applyUpdates, buildUpdates, h]
  · intro g h
    simp [applyUpdates, buildUpdates, h]
  · intro p h
    simp [applyUpdates, buildUpdates, h]
  · intro r h
    simp [applyUpdates, buildUpdates, h]
  · have h4v : putBodyValid b4 = false := by
      unfold putBodyValid
      simp [h4]
    simp [updateMovie, h4v]
  · have h5v : putBodyValid b5 = false := by
      unfold putBodyValid
      simp [h5]
    simp [updateMovie, h5v]

/-- Witness for C4 amended: updating only rating and an empty posterUrl
leaves title, description, genre and releaseYear untouched, overwrites
posterUrl with the empty string, and the explicit empty title and empty
description bodies are rejected with the database unchanged. -/
theorem c4_witness :
    updateMovie 2030 db2 [userA] oidA oid1 bRatingPoster
      = (UpdateResult.ok (populateOwner false [userA]
           (applyUpdates (buildUpdates bRatingPoster) mDune)),
         db2.map (fun x => if x.id = mDune.id
           then applyUpdates (buildUpdates bRatingPoster) mDune else x)) ∧
    (bRatingPoster.title = none →
      (applyUpdates (buildUpdates bRatingPoster) mDune).title = mDune.title) ∧
    (bRatingPoster.description = none →
      (applyUpdates (buildUpdates bRatingPoster) mDune).description = mDune.description) ∧
    (bRatingPoster.genre = none →
      (applyUpdates (buildUpdates bRatingPoster) mDune).genre = mDune.genre) ∧
    (bRatingPoster.releaseYear = none →
      (applyUpdates (buildUpdates bRatingPoster) mDune).releaseYear = mDune.releaseYear) ∧
    (bRatingPoster.rating = none →
      (applyUpdates (buildUpdates bRatingPoster) mDune).rating = mDune.rating) ∧
    (bRatingPoster.posterUrl = none →
      (applyUpdates (buildUpdates bRatingPoster) mDune).posterUrl = mDune.posterUrl) ∧
    (∀ g, bRatingPoster.genre = some g →
      (applyUpdates (buildUpdates bRatingPoster) mDune).genre = some (jsTrim g)) ∧
    (∀ p, bRatingPoster.posterUrl = some p →
      (applyUpdates (buildUpdates bRatingPoster) mDune).posterUrl = some (jsTrim p)) ∧
    (∀ r, bRatingPoster.rating = some r →
      (applyUpdates (buildUpdates bRatingPoster) mDune).rating = r) ∧
    updateMovie 2030 db2 [userA] oidA oid1 bEmptyTitle = (UpdateResult.validationErr, db2) ∧
    updateMovie 2030 db2 [userA] oidA oid1 bEmptyDesc = (UpdateResult.validationErr, db2) :=
  c4_update_presence_amended 2030 db2 [userA] oidA oid1 mDune bRatingPoster
    bEmptyTitle bEmptyDesc rfl (by decide) (by decide) (by decide) (by decide) (by decide)

/-- The page count computed as (T + L - 1) / L covers all T records. -/
theorem ceilDiv_mul_ge (T L : Nat) (hL : 1 ≤ L) : T ≤ ((T + L - 1) / L) * L := by
  rcases Nat.eq_zero_or_pos T with h0 | hpos
  · simp [h0]
  · have h1 : T + L - 1 = (T - 1) + L := by omega
    rw [h1, Nat.add_div_right _ hL]
    have h2 : T - 1 < ((T - 1) / L + 1) * L :=
      (Nat.div_lt_iff_lt_mul hL).mp (Nat.lt_succ_self _)
    omega

/-- The page count computed as (T + L - 1) / L is the least number of
pages of size L covering T records. -/
theorem ceilDiv_le_of_le (T L k : Nat) (hL : 1 ≤ L) (h : T ≤ k * L) :
    (T + L - 1) / L ≤ k := by
  rcases Nat.eq_zero_or_pos T with h0 | hpos
  · subst h0
    have hlt : L - 1 < L := by omega
    have hz := Nat.div_eq_of_lt hlt
    simpa using Nat.le_trans (Nat.le_of_eq hz) (Nat.zero_le k)
  · have h1 : T + L - 1 = (T - 1) + L := by omega
    rw [h1, Nat.add_div_right _ hL]
    have h2 : (T - 1) / L < k := by
      rw [Nat.div_lt_iff_lt_mul hL]
      omega
    omega

/-- Sorting does not change the number of records. -/
theorem length_sortMovies (sBy sOrd : Str) (l : List Movie) :
    (sortMovies sBy sOrd l).length = l.length := by
  unfold sortMovies
  split <;> simp [List.length_mergeSort]

/-- C5: for every listing query with a positive limit, totalMovies is the
exact count of matching movies, totalPages is the least page count
covering them (that is, ceil of totalMovies divided by limit), and any
page beyond totalPages yields an empty movies list, not an error. -/
theorem c5_pagination
    (db : List Movie) (users : List UserT) (q : ListQuery) (page limit : Nat)
    (hp : q.page = some page) (hl : q.limit = some limit) (hlim : 1 ≤ limit) :
    (listMovies db users q).totalMovies = (matchingMovies db q.search).length ∧
    (listMovies db users q).totalMovies ≤ (listMovies db users q).totalPages * limit ∧
    (∀ k : Nat, (listMovies db users q).totalMovies ≤ k * limit →
        (listMovies db users q).totalPages ≤ k) ∧
    ((listMovies db users q).totalPages < page → (listMovies db users q).movies = []) := by
  simp only [listMovies, hp, hl, Option.getD_some]
  refine ⟨by trivial, ?_, ?_, ?_⟩
  · exact ceilDiv_mul_ge _ _ hlim
  · intro k hk
    exact ceilDiv_le_of_le _ _ k hlim hk
  · intro hlt
    have hlen : (sortMovies (q.sortBy.getD (str "uploadedAt"))
        (q.sortOrder.getD (str "desc")) (matchingMovies db q.search)).length
        ≤ (page - 1) * limit := by
      rw [length_sortMovies]
      have hTp : ((matchingMovies db q.search).length + limit - 1) / limit ≤ page - 1 := by
        omega
      have := Nat.mul_le_mul_right limit hTp
      have hcov := ceilDiv_mul_ge (matchingMovies db q.search).length limit hlim
      omega
    rw [List.drop_eq_nil_of_le hlen]
    simp

/-- Witness for C5: two movies with limit 2 give one page; page 5 is
beyond it and returns the empty list with the accurate counts. -/
theorem c5_witness :
    (listMovies db2 [userA] ⟨some 5, some 2, none, none, none⟩).totalMovies
      = (matchingMovies db2 none).length ∧
    (listMovies db2 [userA] ⟨some 5, some 2, none, none, none⟩).totalMovies
      ≤ (listMovies db2 [userA] ⟨some 5, some 2, none, none, none⟩).totalPages * 2 ∧
    (∀ k : Nat,
      (listMovies db2 [userA] ⟨some 5, some 2, none, none, none⟩).totalMovies ≤ k * 2 →
      (listMovies db2 [userA] ⟨some 5, some 2, none, none, none⟩).totalPages ≤ k) ∧
    ((listMovies db2 [userA] ⟨some 5, some 2, none, none, none⟩).totalPages < 5 →
      (listMovies db2 [userA] ⟨some 5, some 2, none, none, none⟩).movies = []) :=
  c5_pagination db2 [userA] ⟨some 5, some 2, none, none, none⟩ 5 2 rfl rfl (by decide)

/-- Dropping the populated view keeps the underlying movie. -/
theorem map_movie_populate (users : List UserT) (l : List Movie) :
    (l.map (populateOwner false users)).map MovieOut.movie = l := by
  rw [List.map_map]
  have h : (MovieOut.movie ∘ populateOwner false users) = id := by
    funext m
    rfl
  rw [h, List.map_id]

/-- Sorting keeps exactly the same records. -/
theorem mem_sortMovies {m : Movie} (sBy sOrd : Str) (l : List Movie) :
    m ∈ sortMovies sBy sOrd l ↔ m ∈ l := by
  unfold sortMovies
  split <;> exact List.mem_mergeSort

/-- Sorting permutes the records. -/
theorem sortMovies_perm (sBy sOrd : Str) (l : List Movie) :
    (sortMovies sBy sOrd l).Perm l := by
  unfold sortMovies
  split <;> exact List.mergeSort_perm l _

/-- The filter stage never grows the record set. -/
theorem length_matchingMovies_le (db : List Movie) (search : Option Str) :
    (matchingMovies db search).length ≤ db.length := by
  cases search with
  | none => simp [matchingMovies]
  | some s =>
    simp only [matchingMovies]
    split
    · exact List.length_filter_le _ _
    · exact Nat.le_refl _

/-- With page 1 and a limit larger than the database, the list endpoint
returns the whole filtered set, up to sort order. -/
theorem listMovies_page1_all (db : List Movie) (users : List UserT)
    (search : Option Str) (sBy sOrd : Option Str) :
    ((listMovies db users ⟨some 1, some (db.length + 1), search, sBy, sOrd⟩).movies.map
        MovieOut.movie).Perm (matchingMovies db search) := by
  simp only [listMovies, Option.getD_some, Nat.sub_self, Nat.zero_mul, List.drop_zero]
  have hlen : (sortMovies (sBy.getD (str "uploadedAt")) (sOrd.getD (str "desc"))
      (matchingMovies db search)).length ≤ db.length + 1 := by
    rw [length_sortMovies]
    have := length_matchingMovies_le db search
    omega
  rw [List.take_of_length_le hlen, map_movie_populate]
  exact sortMovies_perm _ _ _

/-- C7: for every list query with a non-empty search, every returned
movie is a stored movie matched by the tokenized case-insensitive text
match over title and description; with page 1 and a large enough limit
the result set is exactly the matched set and totalMovies counts it; with
an absent or empty search the result set is the whole unfiltered
database. -/
theorem c7_search
    (db : List Movie) (users : List UserT) (s : Str) (sBy sOrd : Option Str)
    (hs : s ≠ []) :
    (∀ q : ListQuery, q.search = some s →
      ∀ mo ∈ (listMovies db users q).movies,
        mo.movie ∈ db ∧ textMatches s mo.movie = true) ∧
    ((listMovies db users ⟨some 1, some (db.length + 1), some s, sBy, sOrd⟩).movies.map
        MovieOut.movie).Perm (db.filter (textMatches s)) ∧
    (listMovies db users ⟨some 1, some (db.length + 1), some s, sBy, sOrd⟩).totalMovies
      = (db.filter (textMatches s)).length ∧
    ((listMovies db users ⟨some 1, some (db.length + 1), none, sBy, sOrd⟩).movies.map
        MovieOut.movie).Perm db ∧
    ((listMovies db users ⟨some 1, some (db.length + 1), some [], sBy, sOrd⟩).movies.map
        MovieOut.movie).Perm db ∧
    (listMovies db users ⟨some 1, some (db.length + 1), none, sBy, sOrd⟩).totalMovies
      = db.length := by
  have htruthy : truthyStr s = true := by
    cases s with
    | nil => exact absurd rfl hs
    | cons a l => rfl
  have hmatch : matchingMovies db (some s) = db.filter (textMatches s) := by
    simp [matchingMovies, htruthy]
  have hmatchNil : matchingMovies db (some []) = db := by
    simp [matchingMovies, truthyStr]
  refine ⟨?_, ?_, ?_, ?_, ?_, ?_⟩
  · intro q hq mo hmo
    simp only [listMovies] at hmo
    rw [List.mem_map] at hmo
    obtain ⟨m, hm, rfl⟩ := hmo
    have hm2 : m ∈ matchingMovies db q.search :=
      (mem_sortMovies _ _ _).mp (List.mem_of_mem_drop (List.mem_of_mem_take hm))
    rw [hq, hmatch, List.mem_filter] at hm2
    exact ⟨hm2.1, hm2.2⟩
  · have := listMovies_page1_all db users (some s) sBy sOrd
    rwa [hmatch] at this
  · simp [listMovies, hmatch]
  · have := listMovies_page1_all db users none sBy sOrd
    simpa [matchingMovies] using this
  · have := listMovies_page1_all db users (some []) sBy sOrd
    rwa [hmatchNil] at this
  · simp [listMovies, matchingMovies]

/-- Witness for C7: searching dune in lowercase over the fixture
database returns exactly the movie titled Dune, and the unfiltered
listing returns both movies. -/
theorem c7_witness :
    (∀ q : ListQuery, q.search = some (str "dune") →
      ∀ mo ∈ (listMovies db2 [userA] q).movies,
        mo.movie ∈ db2 ∧ textMatches (str "dune") mo.movie = true) ∧
    ((listMovies db2 [userA] ⟨some 1, some (db2.length + 1), some (str "dune"),
        none, none⟩).movies.map MovieOut.movie).Perm
      (db2.filter (textMatches (str "dune"))) ∧
    (listMovies db2 [userA] ⟨some 1, some (db2.length + 1), some (str "dune"),
        none, none⟩).totalMovies = (db2.filter (textMatches (str "dune"))).length ∧
    ((listMovies db2 [userA] ⟨some 1, some (db2.length + 1), none,
        none, none⟩).movies.map MovieOut.movie).Perm db2 ∧
    ((listMovies db2 [userA] ⟨some 1, some (db2.length + 1), some [],
        none, none⟩).movies.map MovieOut.movie).Perm db2 ∧
    (listMovies db2 [userA] ⟨some 1, some (db2.length + 1), none,
        none, none⟩).totalMovies = db2.length :=
  c7_search db2 [userA] (str "dune") none none (by decide)

/-- C8: at creation, each optional field is spread into the document only
when its supplied value is truthy: rating 0, releaseYear 0 and empty
strings for genre and posterUrl produce exactly the document produced by
omitting the field, and an absent (or falsy) rating is stored as the
schema default 0. -/
theorem c8_truthy_optional_fields
    (currentYear : Int) (db : List Movie) (users : List UserT)
    (uid newId : Str) (now : Int) (b : MovieBody) :
    createMovie currentYear db users uid newId now { b with rating := some 0 }
      = createMovie currentYear db users uid newId now { b with rating := none } ∧
    createMovie currentYear db users uid newId now { b with genre := some [] }
      = createMovie currentYear db users uid newId now { b with genre := none } ∧
    createMovie currentYear db users uid newId now { b with posterUrl := some [] }
      = createMovie currentYear db users uid newId now { b with posterUrl := none } ∧
    createMovie currentYear db users uid newId now { b with releaseYear := some 0 }
      = createMovie currentYear db users uid newId now { b with releaseYear := none } ∧
    (∀ t d, b.rating = none → (buildNewMovie uid newId now t d b).rating = 0) ∧
    (∀ t d, b.rating = some 0 → (buildNewMovie uid newId now t d b).rating = 0) := by
  obtain ⟨bt, bd, bg, bry, brt, bp⟩ := b
  refine ⟨?_, ?_, ?_, ?_, ?_, ?_⟩
  · cases bt <;> cases bd <;> rfl
  · cases bt <;> cases bd <;> rfl
  · cases bt <;> cases bd <;> rfl
  · cases bt <;> cases bd <;> rfl
  · intro t d h
    have h2 : brt = none := h
    subst h2
    rfl
  · intro t d h
    have h2 : brt = some 0 := h
    subst h2
    rfl

/-- Witness for C8 at the fixture create body: falsy optional values and
omission give identical create calls, and the missing rating lands as 0. -/
theorem c8_witness :
    createMovie 2030 db2 [userA] oidB oidFree 30 { bDuneCreate with rating := some 0 }
      = createMovie 2030 db2 [userA] oidB oidFree 30 { bDuneCreate with rating := none } ∧
    createMovie 2030 db2 [userA] oidB oidFree 30 { bDuneCreate with genre := some [] }
      = createMovie 2030 db2 [userA] oidB oidFree 30 { bDuneCreate with genre := none } ∧
    createMovie 2030 db2 [userA] oidB oidFree 30 { bDuneCreate with posterUrl := some [] }
      = createMovie 2030 db2 [userA] oidB oidFree 30 { bDuneCreate with posterUrl := none } ∧
    createMovie 2030 db2 [userA] oidB oidFree 30 { bDuneCreate with releaseYear := some 0 }
      = createMovie 2030 db2 [userA] oidB oidFree 30 { bDuneCreate with releaseYear := none } ∧
    (∀ t d, bDuneCreate.rating = none →
      (buildNewMovie oidB oidFree 30 t d bDuneCreate).rating = 0) ∧
    (∀ t d, bDuneCreate.rating = some 0 →
      (buildNewMovie oidB oidFree 30 t d bDuneCreate).rating = 0) :=
  c8_truthy_optional_fields 2030 db2 [userA] oidB oidFree 30 bDuneCreate

/-- C9: getOne populates the owner with username and email, while the
list and my-movies endpoints populate the owner with the username only
and never embed an email. -/
theorem c9_populate_email
    (db : List Movie) (users : List UserT) (rawId uid : Str) (m : Movie) (u : UserT)
    (q : ListQuery)
    (hfind : findById db rawId = Except.ok (some m))
    (huser : users.find? (fun v => decide (v.id = m.uploadedBy)) = some u) :
    getMovie db users rawId
      = GetOneResult.ok ⟨m, some ⟨u.username, some u.email⟩⟩ ∧
    (∀ mo ∈ (listMovies db users q).movies, ∀ o, mo.owner = some o → o.email = none) ∧
    (∀ mo ∈ (myMovies db users uid q).movies, ∀ o, mo.owner = some o → o.email = none) := by
  refine ⟨?_, ?_, ?_⟩
  · unfold getMovie
    rw [hfind]
    simp [populateOwner, huser]
  · intro mo hmo o ho
    simp only [listMovies] at hmo
    rw [List.mem_map] at hmo
    obtain ⟨m2, hm2, rfl⟩ := hmo
    simp only [populateOwner, Bool.false_eq_true, if_neg] at ho
    rw [Option.map_eq_some'] at ho
    obtain ⟨u2, hu2, rfl⟩ := ho
    rfl
  · intro mo hmo o ho
    simp only [myMovies] at hmo
    rw [List.mem_map] at hmo
    obtain ⟨m2, hm2, rfl⟩ := hmo
    simp only [populateOwner, Bool.false_eq_true, if_neg] at ho
    rw [Option.map_eq_some'] at ho
    obtain ⟨u2, hu2, rfl⟩ := ho
    rfl

/-- Witness for C9: fetching Dune embeds the alice email; the list and
my-movies views embed no email. -/
theorem c9_witness :
    getMovie db2 [userA, userB] oid1
      = GetOneResult.ok ⟨mDune, some ⟨userA.username, some userA.email⟩⟩ ∧
    (∀ mo ∈ (listMovies db2 [userA, userB] ⟨some 1, some 10, none, none, none⟩).movies,
      ∀ o, mo.owner = some o → o.email = none) ∧
    (∀ mo ∈ (myMovies db2 [userA, userB] oidA ⟨some 1, some 10, none, none, none⟩).movies,
      ∀ o, mo.owner = some o → o.email = none) :=
  c9_populate_email db2 [userA, userB] oid1 oidA mDune userA
    ⟨some 1, some 10, none, none, none⟩ rfl (by decide)

/-- A member of a database of trimmed movies is trimmed. -/
theorem trimmedDb_mem {db : List Movie} (h : trimmedDb db = true)
    {m : Movie} (hm : m ∈ db) : trimmedMovie m = true := by
  rw [trimmedDb, List.all_eq_true] at h
  exact h m hm

/-- A movie found through findById is a stored movie. -/
theorem findById_mem {db : List Movie} {rawId : Str} {m : Movie}
    (h : findById db rawId = Except.ok (some m)) : m ∈ db := by
  unfold findById at h
  split at h
  · injection h with h2
    exact List.mem_of_find?_eq_some h2
  · simp at h

/-- The document built at creation has trimmed string fields. -/
theorem trimmedMovie_build (uid newId : Str) (now : Int) (t d : Str) (b : MovieBody) :
    trimmedMovie (buildNewMovie uid newId now t d b) = true := by
  unfold trimmedMovie buildNewMovie
  simp only [Bool.and_eq_true, decide_eq_true_eq]
  refine ⟨⟨⟨(jsTrim_idem t).symm, (jsTrim_idem d).symm⟩, ?_⟩, ?_⟩
  · cases hbg : b.genre with
    | none => rfl
    | some g =>
      by_cases hg : truthyStr g = true
      · simp [hg, jsTrim_idem]
      · simp [hg]
  · cases hbp : b.posterUrl with
    | none => rfl
    | some p =>
      by_cases hp : truthyStr p = true
      · simp [hp, jsTrim_idem]
      · simp [hp]

/-- Applying a trimmed update to a trimmed movie yields a trimmed movie. -/
theorem trimmedMovie_applyUpdates (b : MovieBody) (m : Movie)
    (hm : trimmedMovie m = true) :
    trimmedMovie (applyUpdates (buildUpdates b) m) = true := by
  unfold trimmedMovie at hm
  simp only [Bool.and_eq_true, decide_eq_true_eq] at hm
  obtain ⟨⟨⟨hmt, hmd⟩, hmg⟩, hmp⟩ := hm
  unfold trimmedMovie applyUpdates buildUpdates
  simp only [Bool.and_eq_true, decide_eq_true_eq]
  refine ⟨⟨⟨?_, ?_⟩, ?_⟩, ?_⟩
  · cases ht : b.title with
    | none => simpa using hmt
    | some t => simp [jsTrim_idem]
  · cases hd : b.description with
    | none => simpa using hmd
    | some d => simp [jsTrim_idem]
  · cases hg : b.genre with
    | none => simpa using hmg
    | some g => simp [jsTrim_idem]
  · cases hp : b.posterUrl with
    | none => simpa using hmp
    | some p => simp [jsTrim_idem]

/-- The database after create is either unchanged or extended with the
built document. -/
theorem createMovie_snd (currentYear : Int) (db : List Movie) (users : List UserT)
    (uid newId : Str) (now : Int) (b : MovieBody) :
    (createMovie currentYear db users uid newId now b).2 = db ∨
    ∃ t d, (createMovie currentYear db users uid newId now b).2
      = db ++ [buildNewMovie uid newId now t d b] := by
  unfold createMovie
  by_cases hv : postBodyValid b = true
  · rw [if_pos hv]
    cases ht : b.title with
    | none => simp
    | some t =>
      cases hd : b.description with
      | none => simp
      | some d =>
        simp only
        split
        · simp
        · split
          · exact Or.inr ⟨t, d, rfl⟩
          · simp
  · rw [if_neg hv]
    simp

/-- The database after update is either unchanged or rewritten pointwise
at the found document. -/
theorem updateMovie_snd (currentYear : Int) (db : List Movie) (users : List UserT)
    (uid rawId : Str) (b : MovieBody) :
    (updateMovie currentYear db users uid rawId b).2 = db ∨
    ∃ m, findById db rawId = Except.ok (some m) ∧
      (updateMovie currentYear db users uid rawId b).2
        = db.map (fun x => if x.id = m.id then applyUpdates (buildUpdates b) m else x) := by
  unfold updateMovie
  by_cases hv : putBodyValid b = true
  · rw [if_pos hv]
    cases hf : findById db rawId with
    | error e => simp
    | ok o =>
      cases o with
      | none => simp
      | some m =>
        simp only
        split
        · simp
        · split
          · exact Or.inr ⟨m, rfl, rfl⟩
          · simp
  · rw [if_neg hv]
    simp

/-- The database after delete is either unchanged or a filter of itself. -/
theorem deleteMovie_snd (db : List Movie) (uid rawId : Str) :
    (deleteMovie db uid rawId).2 = db ∨
    (deleteMovie db uid rawId).2 = db.filter (fun x => decide (x.id ≠ rawId)) := by
  unfold deleteMovie
  cases hf : findById db rawId with
  | error e => simp
  | ok o =>
    cases o with
    | none => simp
    | some m =>
      simp only
      split
      · simp
      · simp

/-- C10: every mutation preserves the invariant that the stored string
fields title, description, genre and posterUrl are fixed points of
trimming: create trims before persisting, update trims each supplied
string before applying it, and delete only removes records. -/
theorem c10_trim_invariant
    (currentYear : Int) (db : List Movie) (users : List UserT)
    (uid newId rawId : Str) (now : Int) (b : MovieBody)
    (hdb : trimmedDb db = true) :
    trimmedDb (createMovie currentYear db users uid newId now b).2 = true ∧
    trimmedDb (updateMovie currentYear db users uid rawId b).2 = true ∧
    trimmedDb (deleteMovie db uid rawId).2 = true := by
  refine ⟨?_, ?_, ?_⟩
  · rcases createMovie_snd currentYear db users uid newId now b with h | ⟨t, d, h⟩
    · rw [h]
      exact hdb
    · rw [h]
      rw [trimmedDb, List.all_eq_true]
      intro x hx
      rcases List.mem_append.mp hx with hx2 | hx2
      · exact trimmedDb_mem hdb hx2
      · rw [List.mem_singleton.mp hx2]
        exact trimmedMovie_build uid newId now t d b
  · rcases updateMovie_snd currentYear db users uid rawId b with h | ⟨m, hf, h⟩
    · rw [h]
      exact hdb
    · rw [h]
      rw [trimmedDb, List.all_eq_true]
      intro x hx
      rw [List.mem_map] at hx
      obtain ⟨y, hy, rfl⟩ := hx
      by_cases hid : y.id = m.id
      · rw [if_pos hid]
        exact trimmedMovie_applyUpdates b m (trimmedDb_mem hdb (findById_mem hf))
      · rw [if_neg hid]
        exact trimmedDb_mem hdb hy
  · rcases deleteMovie_snd db uid rawId with h | h
    · rw [h]
      exact hdb
    · rw [h]
      rw [trimmedDb, List.all_eq_true]
      intro x hx
      exact trimmedDb_mem hdb (List.mem_filter.mp hx).1

/-- Witness for C10: the fixture database is trimmed, and stays trimmed
through a create, an update and a delete. -/
theorem c10_witness :
    trimmedDb (createMovie 2030 db2 [userA] oidB oidFree 30 bDuneCreate).2 = true ∧
    trimmedDb (updateMovie 2030 db2 [userA] oidA oid1 bDuneCreate).2 = true ∧
    trimmedDb (deleteMovie db2 oidA oid1).2 = true :=
  c10_trim_invariant 2030 db2 [userA] oidA oidFree oid1 30 bDuneCreate (by decide)

end MovieManager
